import Mathlib

/-!
# Cognatus research-workflow engine: a shallow embedding

This file embeds the `ScientificMethodEngine` of `src/src/index.ts` (the
safeExecute variant, the one the specification describes) together with its
statistical helpers, and proves or refutes the specification's claims about it.

Modelling conventions:
* JS numbers are modelled as `ℚ` (exact rationals).  Divisions that JS would
  turn into `NaN` (zero divisor) are flagged explicitly where a claim depends
  on them; elsewhere Lean's `x / 0 = 0` convention applies and is noted.
* JS exceptions are modelled with `Except String`: each engine operation body
  returns the state after all mutations it performed (JS mutations are not
  rolled back by a throw) together with either the returned text or the thrown
  message.  `safeExecute` converts a thrown message into the
  `"Error in <context>: <message>"` payload exactly as in the source; the
  operations the source does not wrap expose the thrown message as
  `Outcome.threw`.
* `generateId()` (timestamp + random suffix) is nondeterministic; operations
  that create hypotheses take the generated id(s) as an explicit parameter.
* `String.length` counts characters; the JS `.length` counts UTF-16 units.
  They agree on the ASCII inputs used throughout.
* Long advisory markdown blobs (literature-review guidance, the statistical
  report, the get_state JSON dump) are rendered by clearly named helper
  functions; no claim inspects their text, and any abbreviation relative to
  the source is documented at the helper.
-/

set_option linter.unreachableTactic false
set_option linter.unusedTactic false

namespace Cognatus

/-- The seven workflow stages, with the string values of the source enum. -/
inductive Stage where
  | Observation
  | LiteratureReview
  | HypothesisFormation
  | ExperimentDesign
  | DataCollection
  | Analysis
  | Conclusion
deriving DecidableEq

/-- The string value carried by each enum member in the source. -/
def stageName : Stage → String
  | Stage.Observation => "observation"
  | Stage.LiteratureReview => "literature_review"
  | Stage.HypothesisFormation => "hypothesis_formation"
  | Stage.ExperimentDesign => "experiment_design"
  | Stage.DataCollection => "data_collection"
  | Stage.Analysis => "analysis"
  | Stage.Conclusion => "conclusion"

/-- The transition table `STAGE_TRANSITIONS`. -/
def STAGE_TRANSITIONS : Stage → List Stage
  | Stage.Observation => [Stage.LiteratureReview]
  | Stage.LiteratureReview => [Stage.HypothesisFormation]
  | Stage.HypothesisFormation => [Stage.ExperimentDesign, Stage.HypothesisFormation]
  | Stage.ExperimentDesign => [Stage.DataCollection]
  | Stage.DataCollection => [Stage.Analysis]
  | Stage.Analysis => [Stage.Conclusion]
  | Stage.Conclusion => []

/-- A hypothesis record; `evidenceScore` is the only mutable field. -/
structure Hypothesis where
  id : String
  description : String
  evidenceScore : ℚ
deriving DecidableEq

/-- The mutable research state owned by the engine. -/
structure ResearchState where
  currentStage : Stage
  problemStatement : Option String
  literature : List String
  hypotheses : List Hypothesis
  experiments : List String
  data : List String
  analysis : Option String
  conclusions : List String
deriving DecidableEq

/-- `getInitialState()`. -/
def getInitialState : ResearchState :=
  { currentStage := Stage.Observation
    problemStatement := none
    literature := []
    hypotheses := []
    experiments := []
    data := []
    analysis := none
    conclusions := [] }

/-- What an engine call delivers across the dispatcher boundary. -/
inductive Outcome where
  | returned (text : String)
  | threw (msg : String)
deriving DecidableEq

/-- Final state and outcome of one engine call. -/
structure CallResult where
  state : ResearchState
  outcome : Outcome
deriving DecidableEq

/-- The message of the error thrown by `transitionTo` on an illegal transition. -/
def invalidTransitionMsg (cur next : Stage) (allowed : List Stage) : String :=
  "Invalid transition from " ++ stageName cur ++ " to " ++ stageName next ++
    ". Allowed transitions: " ++ String.intercalate ", " (allowed.map stageName)

/-- `transitionTo`: sets `currentStage` when the transition table allows it,
otherwise throws (the state is untouched by the failed call itself). -/
def transitionTo (s : ResearchState) (nextStage : Stage) : Except String ResearchState :=
  let allowedTransitions := STAGE_TRANSITIONS s.currentStage
  if nextStage ∈ allowedTransitions then
    Except.ok { s with currentStage := nextStage }
  else
    Except.error (invalidTransitionMsg s.currentStage nextStage allowedTransitions)

/-- `safeExecute`: runs a body and converts a thrown message into the
`"Error in <context>: <message>"` text payload. -/
def safeExecute (context : String) (body : ResearchState × Except String String) : CallResult :=
  match body with
  | (s, Except.ok text) => { state := s, outcome := Outcome.returned text }
  | (s, Except.error msg) =>
      { state := s, outcome := Outcome.returned ("Error in " ++ context ++ ": " ++ msg) }

/-- Runs a body with no `safeExecute` wrapper: a thrown message propagates to
the dispatcher. -/
def rawExecute (body : ResearchState × Except String String) : CallResult :=
  match body with
  | (s, Except.ok text) => { state := s, outcome := Outcome.returned text }
  | (s, Except.error msg) => { state := s, outcome := Outcome.threw msg }

/-- Body of `observation`: `validateInput` (empty-field check), the 10-char
minimum, then the mutation and the transition.  Note the mutation happens
before the transition check, so it survives a failed transition. -/
def observationBody (s : ResearchState) (problemStatement : String) :
    ResearchState × Except String String :=
  if problemStatement = "" then
    (s, Except.error "Missing required field: problemStatement")
  else if problemStatement.length < 10 then
    (s, Except.error "Problem statement must be at least 10 characters long")
  else
    let s1 := { s with problemStatement := some problemStatement }
    match transitionTo s1 Stage.LiteratureReview with
    | Except.error msg => (s1, Except.error msg)
    | Except.ok s2 =>
        (s2, Except.ok ("Observation recorded. Current stage: " ++ stageName s2.currentStage))

/-- `observation` (safeExecute-wrapped). -/
def observation (s : ResearchState) (problemStatement : String) : CallResult :=
  safeExecute "observation" (observationBody s problemStatement)

/-- English stop words filtered out by `generateSearchQueries`. -/
def stopWords : List String :=
  ["that", "with", "this", "from", "they", "have", "been", "will", "were",
   "what", "when", "where", "how"]

/-- `generateSearchQueries`: first 50 characters of the statement, plus
combinations of the first stop-word-filtered tokens longer than 4 characters,
keeping only queries longer than 10 characters. -/
def generateSearchQueries (problemStatement : String) : List String :=
  let cleanedStatement := problemStatement.toLower
  let terms := (cleanedStatement.split Char.isWhitespace).filter
    (fun term => 4 < term.length && !(stopWords.contains term))
  let queries := [problemStatement.take 50] ++
    (if 2 ≤ terms.length then
      [terms.getD 0 "" ++ " " ++ terms.getD 1 "" ++ " research",
       terms.getD 0 "" ++ " " ++ terms.getD 1 "" ++ " study"]
     else []) ++
    (if 3 ≤ terms.length then
      [terms.getD 0 "" ++ " " ++ terms.getD 1 "" ++ " " ++ terms.getD 2 ""]
     else [])
  queries.filter (fun q => 10 < q.length)

/-- Renders a numbered list of queries, one `**i.** ` line each. -/
def numberedQueryLines (queries : List String) : String :=
  String.join (queries.enum.map
    (fun p => "**" ++ toString (p.1 + 1) ++ ".** `" ++ p.2 ++ "`\n"))

/-- The markdown block appended when `autoSearch` is set and a problem
statement exists. -/
def searchGuidanceBlock (queries : List String) : String :=
  "### 🌐 Additional Research Needed\n\n" ++
  "Based on your problem statement, please use your web search tools to research the following:\n\n" ++
  numberedQueryLines queries ++
  "\n### 💡 Search Recommendations\n" ++
  "• Use academic search engines (Google Scholar, PubMed, arXiv)\n" ++
  "• Look for peer-reviewed publications\n" ++
  "• Check recent publications (last 5 years)\n" ++
  "• Include systematic reviews and meta-analyses\n" ++
  "• Verify source credibility and citation counts\n\n" ++
  "After completing your web searches, add the findings to your literature review.\n\n"

/-- The success text built by `literature_review` before the push/transition. -/
def literatureReviewText (problemStatement : Option String) (literature : String)
    (autoSearch : Bool) : String :=
  let base := "## 📚 Literature Review\n\n**Manual Review Added:** " ++ literature ++ "\n\n"
  match autoSearch, problemStatement with
  | true, some ps => base ++ searchGuidanceBlock (generateSearchQueries ps)
  | true, none =>
      base ++ "### ⚠️ Search Guidance Unavailable\n" ++
      "Complete the observation stage first to get automated search query suggestions based on your problem statement.\n\n"
  | false, _ => base

/-- Body of `literature_review`: validation, text building, the append, then
the transition (the append survives a failed transition). -/
def literatureReviewBody (s : ResearchState) (literature : String) (autoSearch : Bool) :
    ResearchState × Except String String :=
  if literature = "" then
    (s, Except.error "Missing required field: literature")
  else if literature.length < 20 then
    (s, Except.error "Literature review must be at least 20 characters long")
  else
    let finalOutput := literatureReviewText s.problemStatement literature autoSearch
    let s1 := { s with literature := s.literature ++ [literature] }
    match transitionTo s1 Stage.HypothesisFormation with
    | Except.error msg => (s1, Except.error msg)
    | Except.ok s2 => (s2, Except.ok finalOutput)

/-- `literature_review` (safeExecute-wrapped). -/
def literature_review (s : ResearchState) (literature : String) (autoSearch : Bool) :
    CallResult :=
  safeExecute "literature_review" (literatureReviewBody s literature autoSearch)

/-- A freshly created hypothesis: evidence score 0. -/
def mkHypothesis (id description : String) : Hypothesis :=
  { id := id, description := description, evidenceScore := 0 }

/-- Body of `hypothesis_formation`; `newId` stands for the `generateId()` call. -/
def hypothesisFormationBody (s : ResearchState) (newId hypothesis : String) :
    ResearchState × Except String String :=
  if hypothesis = "" then
    (s, Except.error "Missing required field: hypothesis")
  else if hypothesis.length < 15 then
    (s, Except.error "Hypothesis must be at least 15 characters long")
  else
    let s1 := { s with hypotheses := s.hypotheses ++ [mkHypothesis newId hypothesis] }
    match transitionTo s1 Stage.ExperimentDesign with
    | Except.error msg => (s1, Except.error msg)
    | Except.ok s2 =>
        (s2, Except.ok ("Hypothesis formed. Current stage: " ++ stageName s2.currentStage))

/-- `hypothesis_formation` (safeExecute-wrapped). -/
def hypothesis_formation (s : ResearchState) (newId hypothesis : String) : CallResult :=
  safeExecute "hypothesis_formation" (hypothesisFormationBody s newId hypothesis)

/-- One hypothesis per input text, ids drawn from the supply `gen` in call
order, each with evidence score 0. -/
def generatedHypotheses (gen : Nat → String) (hyps : List String) : List Hypothesis :=
  hyps.enum.map (fun p => mkHypothesis (gen p.1) p.2)

/-- Body of `hypothesis_generation`: no input validation at all in the source;
appends every hypothesis, then self-transitions to HypothesisFormation. -/
def hypothesisGenerationBody (s : ResearchState) (gen : Nat → String)
    (hypotheses : List String) : ResearchState × Except String String :=
  let s1 := { s with hypotheses := s.hypotheses ++ generatedHypotheses gen hypotheses }
  match transitionTo s1 Stage.HypothesisFormation with
  | Except.error msg => (s1, Except.error msg)
  | Except.ok s2 =>
      (s2, Except.ok ("Generated " ++ toString hypotheses.length ++
        " hypotheses. Current stage: " ++ stageName s2.currentStage))

/-- `hypothesis_generation` — NOT wrapped in safeExecute in the source. -/
def hypothesis_generation (s : ResearchState) (gen : Nat → String)
    (hypotheses : List String) : CallResult :=
  rawExecute (hypothesisGenerationBody s gen hypotheses)

/-- Body of `experiment_design`: append, then transition; no validation. -/
def experimentDesignBody (s : ResearchState) (experiment : String) :
    ResearchState × Except String String :=
  let s1 := { s with experiments := s.experiments ++ [experiment] }
  match transitionTo s1 Stage.DataCollection with
  | Except.error msg => (s1, Except.error msg)
  | Except.ok s2 =>
      (s2, Except.ok ("Experiment designed. Current stage: " ++ stageName s2.currentStage))

/-- `experiment_design` — NOT wrapped in safeExecute in the source. -/
def experiment_design (s : ResearchState) (experiment : String) : CallResult :=
  rawExecute (experimentDesignBody s experiment)

/-- Body of `data_collection`: append, then transition; no validation. -/
def dataCollectionBody (s : ResearchState) (data : String) :
    ResearchState × Except String String :=
  let s1 := { s with data := s.data ++ [data] }
  match transitionTo s1 Stage.Analysis with
  | Except.error msg => (s1, Except.error msg)
  | Except.ok s2 =>
      (s2, Except.ok ("Data collected. Current stage: " ++ stageName s2.currentStage))

/-- `data_collection` — NOT wrapped in safeExecute in the source. -/
def data_collection (s : ResearchState) (data : String) : CallResult :=
  rawExecute (dataCollectionBody s data)

/-- Body of the stage operation `analysis`: set the field, then transition. -/
def analysisBody (s : ResearchState) (analysis : String) :
    ResearchState × Except String String :=
  let s1 := { s with analysis := some analysis }
  match transitionTo s1 Stage.Conclusion with
  | Except.error msg => (s1, Except.error msg)
  | Except.ok s2 =>
      (s2, Except.ok ("Analysis performed. Current stage: " ++ stageName s2.currentStage))

/-- The stage operation `analysis` — NOT wrapped in safeExecute in the source. -/
def analysis (s : ResearchState) (analysisText : String) : CallResult :=
  rawExecute (analysisBody s analysisText)

/-- `conclusion`: appends and returns; terminal, no transition, no validation.
It cannot throw, so the missing safeExecute wrapper is harmless here. -/
def conclusion (s : ResearchState) (conclusionText : String) : CallResult :=
  rawExecute ({ s with conclusions := s.conclusions ++ [conclusionText] },
    Except.ok "Conclusion drawn. Research complete.")

/-- `generateAcademicSearchQueries`. -/
def generateAcademicSearchQueries (query : String) : List String :=
  [query ++ " academic research", "\"" ++ query ++ "\" study", query ++ " peer reviewed"]

/-- The guidance text returned by `literature_search`. -/
def literatureSearchText (query : String) : String :=
  "## 🔍 Literature Search Request\n\n" ++
  "**Original Query:** \"" ++ query ++ "\"\n\n" ++
  "### 🌐 Please Use Your Web Search Tools\n\n" ++
  "Use your available web search capabilities to find academic literature. Search for these optimized queries:\n\n" ++
  numberedQueryLines (generateAcademicSearchQueries query) ++
  "\n### 💡 Search Tips\n" ++
  "• Your web search should automatically access academic databases\n" ++
  "• Look for peer-reviewed sources and citations\n" ++
  "• Include recent publications when relevant\n" ++
  "• Verify source credibility\n\n" ++
  "Please provide the actual research results you find for integration into the literature review."

/-- Body of `literature_search`: validation, guidance text, and an append of a
tracking entry to `literature`.  No stage transition. -/
def literatureSearchBody (s : ResearchState) (query : String) :
    ResearchState × Except String String :=
  if query = "" then
    (s, Except.error "Missing required field: query")
  else if query.length < 3 then
    (s, Except.error "Search query must be at least 3 characters long")
  else
    let s1 := { s with literature :=
      s.literature ++ ["Literature search requested: \"" ++ query ++ "\""] }
    (s1, Except.ok (literatureSearchText query))

/-- `literature_search` (safeExecute-wrapped). -/
def literature_search (s : ResearchState) (query : String) : CallResult :=
  safeExecute "literature_search" (literatureSearchBody s query)

/-! ## Statistical helpers (`parseDataPoints` and the StatisticsEngine parts
the claims are about) -/

/-- Characters kept by `point.replace(/[^\d.-]/g, ' ')`. -/
def keepChar (c : Char) : Bool := c.isDigit || c == '.' || c == '-'

/-- The replace step itself: every other character becomes a space
(character-by-character, as `String.replace` with a single-character class
acts on the unit sequence). -/
def cleanPoint (point : String) : String :=
  String.mk (point.data.map (fun c => if keepChar c then c else ' '))

/-- Space-separated tokens of a character list, empty tokens dropped; the
accumulator holds the current token reversed. -/
def tokensAux : List Char → List Char → List String
  | [], acc => if acc = [] then [] else [String.mk acc.reverse]
  | c :: rest, acc =>
      if c = ' ' then
        (if acc = [] then tokensAux rest []
         else String.mk acc.reverse :: tokensAux rest [])
      else tokensAux rest (c :: acc)

/-- `.trim().split(/\s+/)` on a cleaned point, dropping empty tokens.  After
`cleanPoint` the only whitespace is the space character; JS yields no empty
tokens on a non-empty trimmed string and the lone `""` token of an empty
string parses to NaN and is filtered, so dropping empty tokens here gives the
same numeric output. -/
def splitTokens (s : String) : List String :=
  tokensAux s.data []

/-- Decimal digits to a natural number. -/
def digitsToNat (ds : List Char) : Nat :=
  ds.foldl (fun acc c => acc * 10 + (c.toNat - '0'.toNat)) 0

/-- Fractional digits to a rational in `[0, 1)`. -/
def fracValue (ds : List Char) : ℚ :=
  (digitsToNat ds : ℚ) / (10 ^ ds.length : ℚ)

/-- Longest-prefix parse of an unsigned decimal (digits, optional point,
digits), ignoring trailing junk; `none` models NaN. -/
def parseUnsigned (cs : List Char) : Option ℚ :=
  let intDigits := cs.takeWhile Char.isDigit
  let rest := cs.drop intDigits.length
  match rest with
  | '.' :: rest2 =>
      let fracDigits := rest2.takeWhile Char.isDigit
      if intDigits = [] ∧ fracDigits = [] then none
      else some ((digitsToNat intDigits : ℚ) + fracValue fracDigits)
  | _ => if intDigits = [] then none else some (digitsToNat intDigits)

/-- JS `parseFloat`, restricted to the alphabet `splitTokens ∘ cleanPoint` can
produce (digits, `.`, `-`): optional sign, then a longest decimal prefix;
exponents and leading whitespace cannot occur in these tokens. -/
def jsParseFloat (s : String) : Option ℚ :=
  match s.data with
  | '-' :: rest => (parseUnsigned rest).map Neg.neg
  | '+' :: rest => parseUnsigned rest
  | cs => parseUnsigned cs

/-- `parseDataPoints`: clean each point, tokenize, parse, drop NaNs, and
flatten across all points. -/
def parseDataPoints (data : List String) : List ℚ :=
  (data.map (fun point => (splitTokens (cleanPoint point)).filterMap jsParseFloat)).flatten

/-- `Math.round` (half goes toward positive infinity). -/
def jsRound (q : ℚ) : ℤ := ⌊q + 1/2⌋

/-- `Math.round(x*1000)/1000`, the 3-decimal display rounding. -/
def jsRound3 (q : ℚ) : ℚ := (jsRound (q * 1000) : ℚ) / 1000

/-- `x.toFixed(2)` for the non-negative rationals the engine produces
(evidence scores live in `[0,1]`): round to 2 decimals, half away from zero,
then render with exactly two decimals.  Negative inputs never occur in any
claim. -/
def jsToFixed2 (q : ℚ) : String :=
  let n : ℤ := jsRound (q * 100)
  let intPart := n / 100
  let frac := (n % 100).toNat
  toString intPart ++ "." ++ (if frac < 10 then "0" else "") ++ toString frac

/-- `percentile(sortedData, p)`: linear interpolation between the two order
statistics around `p * (n-1)`.  Out-of-range indices (impossible for
`p ∈ [0,1]` on non-empty input) default to 0 where JS would produce NaN. -/
def percentile (sortedData : List ℚ) (p : ℚ) : ℚ :=
  let index : ℚ := p * ((sortedData.length : ℚ) - 1)
  let lower : ℤ := ⌊index⌋
  let upper : ℤ := ⌈index⌉
  let weight : ℚ := index - (lower : ℚ)
  if lower = upper then sortedData.getD lower.toNat 0
  else
    sortedData.getD lower.toNat 0 * (1 - weight) + sortedData.getD upper.toNat 0 * weight

/-- The lag-1 pairs `[data[i], data[i+1]]` for `i < length - 1`. -/
def lagPairs (data : List ℚ) : List (ℚ × ℚ) := data.zip data.tail

/-- Numerator of `calculatePearsonCorrelation`:
`Σ (x - x̄)(y - ȳ)` over the pairs. -/
def pearsonNumerator (pairs : List (ℚ × ℚ)) : ℚ :=
  let n : ℚ := pairs.length
  let xMean := (pairs.map Prod.fst).sum / n
  let yMean := (pairs.map Prod.snd).sum / n
  (pairs.map (fun p => (p.1 - xMean) * (p.2 - yMean))).sum

/-- Square of the denominator of `calculatePearsonCorrelation`:
`xVariance * yVariance` (the sums of squared deviations); the JS correlation
is `pearsonNumerator / Math.sqrt(pearsonDenomSq)`. -/
def pearsonDenomSq (pairs : List (ℚ × ℚ)) : ℚ :=
  let n : ℚ := pairs.length
  let xMean := (pairs.map Prod.fst).sum / n
  let yMean := (pairs.map Prod.snd).sum / n
  ((pairs.map (fun p => (p.1 - xMean) ^ 2)).sum) *
    ((pairs.map (fun p => (p.2 - yMean) ^ 2)).sum)

/-- One entry of `calculateCorrelations`.  The source entry is
`{metric, value, interpretation, significance}` with
`value = Math.round(1000 * num / Math.sqrt(denomSq)) / 1000`; the square root
is irrational in general, so the entry carries the exact pair
`(corrNumerator, corrDenomSq)` from which the JS value is formed, and the
interpretation/significance strings (functions of that value, inspected by no
claim) are not re-rendered.  `corrDenomSq = 0` is exactly the case where the
unguarded JS division produces a non-real value (NaN when the numerator is
also 0). -/
structure CorrelationEntry where
  metric : String
  corrNumerator : ℚ
  corrDenomSq : ℚ
deriving DecidableEq

/-- `calculateCorrelations`: empty below 4 data points (and below 3 pairs),
otherwise a single lag-1 serial-correlation entry. -/
def calculateCorrelations (data : List ℚ) : List CorrelationEntry :=
  if data.length < 4 then []
  else
    let pairs := lagPairs data
    if pairs.length < 3 then []
    else
      [{ metric := "Serial Correlation (Lag-1)"
         corrNumerator := pearsonNumerator pairs
         corrDenomSq := pearsonDenomSq pairs }]

/-- One entry of `performRegressionAnalysis`; the interpretation prose
(`toFixed` renderings, inspected by no claim) is not re-rendered. -/
structure RegressionEntry where
  metric : String
  value : ℚ
  significance : String
deriving DecidableEq

/-- `performRegressionAnalysis`: empty below 4 data points, otherwise OLS of
the values against their 1-based index.  The slope denominator is positive
for `n ≥ 2`; the `R²` division has a zero divisor exactly when all values are
equal, where JS produces NaN while `ℚ` division yields `1 - 0 = 1` — no claim
exercises that case (the claims about this function stop at the `n < 4`
guard). -/
def performRegressionAnalysis (data : List ℚ) : List RegressionEntry :=
  if data.length < 4 then []
  else
    let n : ℚ := data.length
    let xValues : List ℚ := (List.range data.length).map (fun i => (i : ℚ) + 1)
    let yValues := data
    let xMean := xValues.sum / n
    let yMean := yValues.sum / n
    let numerator := ((xValues.zip yValues).map
      (fun p => (p.1 - xMean) * (p.2 - yMean))).sum
    let denominator := (xValues.map (fun x => (x - xMean) ^ 2)).sum
    let slope := numerator / denominator
    let intercept := yMean - slope * xMean
    let yPredicted := xValues.map (fun x => intercept + slope * x)
    let ssRes := ((yValues.zip yPredicted).map (fun p => (p.1 - p.2) ^ 2)).sum
    let ssTot := (yValues.map (fun y => (y - yMean) ^ 2)).sum
    let rSquared := 1 - ssRes / ssTot
    [{ metric := "Trend Slope"
       value := jsRound3 slope
       significance :=
         if |slope| < 1/10 then "low" else if |slope| < 1 then "moderate" else "high" },
     { metric := "R-squared"
       value := jsRound3 rSquared
       significance :=
         if 7/10 < rSquared then "high"
         else if 3/10 < rSquared then "moderate" else "low" }]

/-- The one-line summary `data_analysis` stores in `state.analysis` on
success.  The dispatcher schema passes only `data`, so `analysisType` is
always the default `comprehensive`. -/
def analysisStatusLine (dataLen numericLen : Nat) : String :=
  "Statistical analysis completed: comprehensive analysis of " ++
    toString dataLen ++ " data points (" ++ toString numericLen ++ " numeric)"

/-- Placeholder for the success text of `data_analysis`.  The source renders
a long markdown report (`formatDataAnalysisReport`) whose numeric entries go
through `Math.sqrt`; no claim inspects this text, so it is modelled by the
report's header line. -/
def dataAnalysisSummary : String := "## 📊 Statistical Data Analysis Report"

/-- Body of `data_analysis`: the `validateInput` call cannot fail for an
array-typed field (an array is neither null nor the empty string), then the
two size guards, then the analysis.  Both failure paths leave the state
untouched. -/
def dataAnalysisBody (s : ResearchState) (data : List String) :
    ResearchState × Except String String :=
  if data.length < 2 then
    (s, Except.error "At least 2 data points are required for statistical analysis")
  else
    let numericData := parseDataPoints data
    if numericData.length = 0 then
      (s, Except.error "No valid numeric data found for analysis")
    else
      ({ s with analysis := some (analysisStatusLine data.length numericData.length) },
       Except.ok dataAnalysisSummary)

/-- `data_analysis` (safeExecute-wrapped). -/
def data_analysis (s : ResearchState) (data : List String) : CallResult :=
  safeExecute "data_analysis" (dataAnalysisBody s data)

/-! ## Hypothesis scoring and breakthrough check -/

/-- In-place update of the first hypothesis with the given id, as
`Array.prototype.find` returns the first match. -/
def updateFirstHypothesis (hypothesisId : String) (score : ℚ) :
    List Hypothesis → List Hypothesis
  | [] => []
  | h :: t =>
      if h.id = hypothesisId then { h with evidenceScore := score } :: t
      else h :: updateFirstHypothesis hypothesisId score t

/-- Body of `score_hypothesis`: `validateInput` can only reject an empty id
(the score is a number, never null or the empty string), then the range check,
the lookup, and the in-place mutation.  The `toString` of the score stands for
the JS template rendering of the number, inspected by no claim. -/
def scoreHypothesisBody (s : ResearchState) (hypothesisId : String) (score : ℚ) :
    ResearchState × Except String String :=
  if hypothesisId = "" then
    (s, Except.error "Missing required field: hypothesisId")
  else if score < 0 ∨ 1 < score then
    (s, Except.error "Evidence score must be between 0 and 1")
  else if (s.hypotheses.find? (fun h => h.id == hypothesisId)).isNone then
    (s, Except.error ("Hypothesis with ID " ++ hypothesisId ++ " not found."))
  else
    ({ s with hypotheses := updateFirstHypothesis hypothesisId score s.hypotheses },
     Except.ok ("Hypothesis " ++ hypothesisId ++ " evidence score updated to " ++
       toString score ++ "."))

/-- `score_hypothesis` (safeExecute-wrapped). -/
def score_hypothesis (s : ResearchState) (hypothesisId : String) (score : ℚ) : CallResult :=
  safeExecute "score_hypothesis" (scoreHypothesisBody s hypothesisId score)

/-- Mean evidence score: sum of scores divided by the count. -/
def averageEvidence (hyps : List Hypothesis) : ℚ :=
  (hyps.map Hypothesis.evidenceScore).sum / (hyps.length : ℚ)

/-- The tier suffix appended by `check_for_breakthrough`. -/
def breakthroughMsg : String :=
  " 🎉 POTENTIAL BREAKTHROUGH DETECTED! High confidence in hypotheses."

/-- Strong-evidence tier suffix. -/
def strongMsg : String := " ⚡ Strong evidence supporting current hypotheses."

/-- Moderate-evidence tier suffix. -/
def moderateMsg : String := " 📊 Moderate evidence. More research needed."

/-- Low-evidence tier suffix. -/
def lowMsg : String := " 🔍 Low evidence. Consider refining hypotheses."

/-- The tier selection if-chain of `check_for_breakthrough`. -/
def breakthroughStatus (averageEvidenceScore : ℚ) : String :=
  if 8/10 ≤ averageEvidenceScore then breakthroughMsg
  else if 6/10 ≤ averageEvidenceScore then strongMsg
  else if 4/10 ≤ averageEvidenceScore then moderateMsg
  else lowMsg

/-- The "no hypotheses" graceful message. -/
def noHypothesesMsg : String :=
  "No hypotheses to check for breakthrough. Please form hypotheses first."

/-- Body of `check_for_breakthrough`: read-only; graceful message when no
hypotheses exist, otherwise the mean evidence score plus its tier. -/
def checkForBreakthroughBody (s : ResearchState) : ResearchState × Except String String :=
  if s.hypotheses.length = 0 then
    (s, Except.ok noHypothesesMsg)
  else
    let avg := averageEvidence s.hypotheses
    (s, Except.ok ("Current average evidence score across all hypotheses: " ++
      jsToFixed2 avg ++ "." ++ breakthroughStatus avg))

/-- `check_for_breakthrough` (safeExecute-wrapped). -/
def check_for_breakthrough (s : ResearchState) : CallResult :=
  safeExecute "check_for_breakthrough" (checkForBreakthroughBody s)

/-- The stateInfo record of `get_state`, rendered field by field.  The source
serializes it with `JSON.stringify(stateInfo, null, 2)`; the exact JSON
punctuation is inspected by no claim, so each field is rendered on its own
line in source order. -/
def stateInfoText (s : ResearchState) : String :=
  "currentStage: " ++ stageName s.currentStage ++ "\n" ++
  "problemStatement: " ++ (match s.problemStatement with
    | some ps => ps
    | none => "null") ++ "\n" ++
  "literatureCount: " ++ toString s.literature.length ++ "\n" ++
  "hypothesesCount: " ++ toString s.hypotheses.length ++ "\n" ++
  "experimentsCount: " ++ toString s.experiments.length ++ "\n" ++
  "dataPointsCount: " ++ toString s.data.length ++ "\n" ++
  "hasAnalysis: " ++ (if s.analysis.isSome then "true" else "false") ++ "\n" ++
  "conclusionsCount: " ++ toString s.conclusions.length ++ "\n" ++
  "averageEvidenceScore: " ++ (if s.hypotheses.length ≠ 0 then
    jsToFixed2 (averageEvidence s.hypotheses) else "N/A")

/-- The stage/next-stages text returned by `get_state` (the `join || fallback`
of the source maps the empty join to the fallback). -/
def getStateText (s : ResearchState) : String :=
  let nextSteps := STAGE_TRANSITIONS s.currentStage
  "\n\nCurrent Stage: " ++ stageName s.currentStage ++
  "\nNext Available Stages: " ++
  (if nextSteps = [] then "None (research complete)"
   else String.intercalate ", " (nextSteps.map stageName)) ++
  "\n\nDetailed State:\n" ++ stateInfoText s

/-- `get_state` (safeExecute-wrapped): read-only projection. -/
def get_state (s : ResearchState) : CallResult :=
  safeExecute "get_state" (s, Except.ok (getStateText s))

/-- The identifying data of a hypothesis, everything but the mutable score. -/
def hypothesisKey (h : Hypothesis) : String × String := (h.id, h.description)

/-- Append-only evolution of the sequence-valued state fields: each of
`literature`/`experiments`/`data`/`conclusions` before the step is a prefix of
its value after the step, and the hypotheses sequence keeps its ids and
descriptions as a prefix (only scores may differ). -/
def AppendOnly (s s' : ResearchState) : Prop :=
  s.literature <+: s'.literature ∧
  s.experiments <+: s'.experiments ∧
  s.data <+: s'.data ∧
  s.conclusions <+: s'.conclusions ∧
  s.hypotheses.map hypothesisKey <+: s'.hypotheses.map hypothesisKey

/-- A terminal-stage state: no transition out of Conclusion is legal. -/
def terminalState : ResearchState := { getInitialState with currentStage := Stage.Conclusion }

/-! ## Structural lemmas -/

theorem safeExecute_state (context : String) (body : ResearchState × Except String String) :
    (safeExecute context body).state = body.1 := by
  obtain ⟨s, e⟩ := body
  cases e <;> rfl

theorem rawExecute_state (body : ResearchState × Except String String) :
    (rawExecute body).state = body.1 := by
  obtain ⟨s, e⟩ := body
  cases e <;> rfl

theorem safeExecute_returned (context : String) (body : ResearchState × Except String String) :
    ∃ t, (safeExecute context body).outcome = Outcome.returned t := by
  obtain ⟨s, e⟩ := body
  cases e <;> exact ⟨_, rfl⟩

theorem transitionTo_not_mem (s : ResearchState) (next : Stage)
    (h : next ∉ STAGE_TRANSITIONS s.currentStage) :
    transitionTo s next =
      Except.error (invalidTransitionMsg s.currentStage next
        (STAGE_TRANSITIONS s.currentStage)) := by
  simp [transitionTo, h]

theorem transitionTo_mem (s : ResearchState) (next : Stage)
    (h : next ∈ STAGE_TRANSITIONS s.currentStage) :
    transitionTo s next = Except.ok { s with currentStage := next } := by
  simp [transitionTo, h]

theorem ite_transition_ok {α β : Type} {c : Prop} [Decidable c] {a : α} {e : β} {s' : α}
    (h : (if c then Except.ok a else Except.error e) = Except.ok s') : s' = a := by
  split at h
  · exact (Except.ok.inj h).symm
  · exact Except.noConfusion h

theorem appendOnly_rfl (s : ResearchState) : AppendOnly s s :=
  ⟨List.prefix_rfl, List.prefix_rfl, List.prefix_rfl, List.prefix_rfl, List.prefix_rfl⟩

theorem updateFirstHypothesis_keys (hypothesisId : String) (score : ℚ) :
    ∀ l : List Hypothesis,
      (updateFirstHypothesis hypothesisId score l).map hypothesisKey =
        l.map hypothesisKey := by
  intro l
  induction l with
  | nil => rfl
  | cons h t ih =>
      unfold updateFirstHypothesis
      split
      · simp [hypothesisKey]
      · simp [hypothesisKey, ih]

/-! ## C1: invalid transitions -/

/-- C1, counterexample.  The claim says a stage operation whose target stage
is not allowed from the current stage leaves the entire `ResearchState`
unchanged.  Calling `literature_review` on the initial state (stage
Observation, from which only the transition to LiteratureReview is legal)
fails with the invalid-transition error as claimed, but the state differs
from the initial state: the literature entry was appended before the
transition check ran. -/
theorem invalid_transition_mutates_state :
    (literature_review getInitialState "a sufficiently long literature entry" false).state
        ≠ getInitialState ∧
    (literature_review getInitialState "a sufficiently long literature entry" false).state.literature
        = ["a sufficiently long literature entry"] ∧
    (literature_review getInitialState "a sufficiently long literature entry" false).outcome
        = Outcome.returned "Error in literature_review: Invalid transition from observation to hypothesis_formation. Allowed transitions: literature_review" := by
  refine ⟨?_, ?_, ?_⟩ <;> decide

/-- C1 (amended): a stage operation called with valid input while its target
stage is not allowed from the current stage fails with the
InvalidTransitionError (returned as `"Error in <op>: ..."` text by the
safeExecute-wrapped operations, propagated as a thrown error by the
unwrapped ones) and leaves `currentStage` unchanged — but the state mutation
performed before the transition check persists: `observation` keeps the new
`problemStatement`, `literature_review`/`hypothesis_formation`/
`hypothesis_generation`/`experiment_design`/`data_collection` keep their
appended entry, and `analysis` keeps the new `analysis` text. -/
theorem invalid_transition_error_and_persisted_mutation (s : ResearchState) :
    (∀ ps : String, 10 ≤ ps.length →
      Stage.LiteratureReview ∉ STAGE_TRANSITIONS s.currentStage →
      observation s ps =
        ⟨{ s with problemStatement := some ps },
         Outcome.returned ("Error in observation: " ++
           invalidTransitionMsg s.currentStage Stage.LiteratureReview
             (STAGE_TRANSITIONS s.currentStage))⟩) ∧
    (∀ lit : String, ∀ autoSearch : Bool, 20 ≤ lit.length →
      Stage.HypothesisFormation ∉ STAGE_TRANSITIONS s.currentStage →
      literature_review s lit autoSearch =
        ⟨{ s with literature := s.literature ++ [lit] },
         Outcome.returned ("Error in literature_review: " ++
           invalidTransitionMsg s.currentStage Stage.HypothesisFormation
             (STAGE_TRANSITIONS s.currentStage))⟩) ∧
    (∀ newId hyp : String, 15 ≤ hyp.length →
      Stage.ExperimentDesign ∉ STAGE_TRANSITIONS s.currentStage →
      hypothesis_formation s newId hyp =
        ⟨{ s with hypotheses := s.hypotheses ++ [mkHypothesis newId hyp] },
         Outcome.returned ("Error in hypothesis_formation: " ++
           invalidTransitionMsg s.currentStage Stage.ExperimentDesign
             (STAGE_TRANSITIONS s.currentStage))⟩) ∧
    (∀ gen : Nat → String, ∀ hyps : List String,
      Stage.HypothesisFormation ∉ STAGE_TRANSITIONS s.currentStage →
      hypothesis_generation s gen hyps =
        ⟨{ s with hypotheses := s.hypotheses ++ generatedHypotheses gen hyps },
         Outcome.threw (invalidTransitionMsg s.currentStage Stage.HypothesisFormation
           (STAGE_TRANSITIONS s.currentStage))⟩) ∧
    (∀ e : String, Stage.DataCollection ∉ STAGE_TRANSITIONS s.currentStage →
      experiment_design s e =
        ⟨{ s with experiments := s.experiments ++ [e] },
         Outcome.threw (invalidTransitionMsg s.currentStage Stage.DataCollection
           (STAGE_TRANSITIONS s.currentStage))⟩) ∧
    (∀ d : String, Stage.Analysis ∉ STAGE_TRANSITIONS s.currentStage →
      data_collection s d =
        ⟨{ s with data := s.data ++ [d] },
         Outcome.threw (invalidTransitionMsg s.currentStage Stage.Analysis
           (STAGE_TRANSITIONS s.currentStage))⟩) ∧
    (∀ a : String, Stage.Conclusion ∉ STAGE_TRANSITIONS s.currentStage →
      analysis s a =
        ⟨{ s with analysis := some a },
         Outcome.threw (invalidTransitionMsg s.currentStage Stage.Conclusion
           (STAGE_TRANSITIONS s.currentStage))⟩) := by
  refine ⟨?_, ?_, ?_, ?_, ?_, ?_, ?_⟩
  · intro ps hlen hmem
    have hne : ps ≠ "" := by
      intro h
      subst h
      exact absurd hlen (by decide)
    have hlt : ¬ ps.length < 10 := by omega
    have ht : transitionTo { s with problemStatement := some ps } Stage.LiteratureReview =
        Except.error (invalidTransitionMsg s.currentStage Stage.LiteratureReview
          (STAGE_TRANSITIONS s.currentStage)) :=
      transitionTo_not_mem _ _ hmem
    simp only [observation, observationBody, if_neg hne, if_neg hlt, ht, safeExecute]
    rfl
  · intro lit autoSearch hlen hmem
    have hne : lit ≠ "" := by
      intro h
      subst h
      exact absurd hlen (by decide)
    have hlt : ¬ lit.length < 20 := by omega
    have ht : transitionTo { s with literature := s.literature ++ [lit] }
        Stage.HypothesisFormation =
        Except.error (invalidTransitionMsg s.currentStage Stage.HypothesisFormation
          (STAGE_TRANSITIONS s.currentStage)) :=
      transitionTo_not_mem _ _ hmem
    simp only [literature_review, literatureReviewBody, if_neg hne, if_neg hlt, ht, safeExecute]
    rfl
  · intro newId hyp hlen hmem
    have hne : hyp ≠ "" := by
      intro h
      subst h
      exact absurd hlen (by decide)
    have hlt : ¬ hyp.length < 15 := by omega
    have ht : transitionTo { s with hypotheses := s.hypotheses ++ [mkHypothesis newId hyp] }
        Stage.ExperimentDesign =
        Except.error (invalidTransitionMsg s.currentStage Stage.ExperimentDesign
          (STAGE_TRANSITIONS s.currentStage)) :=
      transitionTo_not_mem _ _ hmem
    simp only [hypothesis_formation, hypothesisFormationBody, if_neg hne, if_neg hlt, ht,
      safeExecute]
    rfl
  · intro gen hyps hmem
    have ht : transitionTo { s with hypotheses := s.hypotheses ++ generatedHypotheses gen hyps }
        Stage.HypothesisFormation =
        Except.error (invalidTransitionMsg s.currentStage Stage.HypothesisFormation
          (STAGE_TRANSITIONS s.currentStage)) :=
      transitionTo_not_mem _ _ hmem
    simp only [hypothesis_generation, hypothesisGenerationBody, ht, rawExecute]
  · intro e hmem
    have ht : transitionTo { s with experiments := s.experiments ++ [e] }
        Stage.DataCollection =
        Except.error (invalidTransitionMsg s.currentStage Stage.DataCollection
          (STAGE_TRANSITIONS s.currentStage)) :=
      transitionTo_not_mem _ _ hmem
    simp only [experiment_design, experimentDesignBody, ht, rawExecute]
  · intro d hmem
    have ht : transitionTo { s with data := s.data ++ [d] } Stage.Analysis =
        Except.error (invalidTransitionMsg s.currentStage Stage.Analysis
          (STAGE_TRANSITIONS s.currentStage)) :=
      transitionTo_not_mem _ _ hmem
    simp only [data_collection, dataCollectionBody, ht, rawExecute]
  · intro a hmem
    have ht : transitionTo { s with analysis := some a } Stage.Conclusion =
        Except.error (invalidTransitionMsg s.currentStage Stage.Conclusion
          (STAGE_TRANSITIONS s.currentStage)) :=
      transitionTo_not_mem _ _ hmem
    simp only [analysis, analysisBody, ht, rawExecute]

/-- C1 witness: all seven conjuncts instantiated at the terminal state (stage
Conclusion, from which nothing is legal), with the error payloads fully
evaluated. -/
theorem invalid_transition_error_and_persisted_mutation_witness :
    observation terminalState "a problem statement" =
      ⟨{ terminalState with problemStatement := some "a problem statement" },
       Outcome.returned "Error in observation: Invalid transition from conclusion to literature_review. Allowed transitions: "⟩ ∧
    literature_review terminalState "a sufficiently long literature entry" false =
      ⟨{ terminalState with literature := ["a sufficiently long literature entry"] },
       Outcome.returned "Error in literature_review: Invalid transition from conclusion to hypothesis_formation. Allowed transitions: "⟩ ∧
    hypothesis_formation terminalState "id0" "a testable hypothesis" =
      ⟨{ terminalState with hypotheses := [mkHypothesis "id0" "a testable hypothesis"] },
       Outcome.returned "Error in hypothesis_formation: Invalid transition from conclusion to experiment_design. Allowed transitions: "⟩ ∧
    hypothesis_generation terminalState (fun i => "gid" ++ toString i) ["first competing hypothesis"] =
      ⟨{ terminalState with hypotheses := [mkHypothesis "gid0" "first competing hypothesis"] },
       Outcome.threw "Invalid transition from conclusion to hypothesis_formation. Allowed transitions: "⟩ ∧
    experiment_design terminalState "an experiment" =
      ⟨{ terminalState with experiments := ["an experiment"] },
       Outcome.threw "Invalid transition from conclusion to data_collection. Allowed transitions: "⟩ ∧
    data_collection terminalState "a data point" =
      ⟨{ terminalState with data := ["a data point"] },
       Outcome.threw "Invalid transition from conclusion to analysis. Allowed transitions: "⟩ ∧
    analysis terminalState "an analysis text" =
      ⟨{ terminalState with analysis := some "an analysis text" },
       Outcome.threw "Invalid transition from conclusion to conclusion. Allowed transitions: "⟩ := by
  obtain ⟨h1, h2, h3, h4, h5, h6, h7⟩ :=
    invalid_transition_error_and_persisted_mutation terminalState
  exact ⟨(h1 "a problem statement" (by decide) (by decide)).trans (by decide),
    (h2 "a sufficiently long literature entry" false (by decide) (by decide)).trans (by decide),
    (h3 "id0" "a testable hypothesis" (by decide) (by decide)).trans (by decide),
    (h4 (fun i => "gid" ++ toString i) ["first competing hypothesis"] (by decide)).trans (by decide),
    (h5 "an experiment" (by decide)).trans (by decide),
    (h6 "a data point" (by decide)).trans (by decide),
    (h7 "an analysis text" (by decide)).trans (by decide)⟩

/-! ## C2: error conversion at the dispatcher boundary -/

/-- C2, counterexample.  The claim says no dispatcher-exposed operation ever
propagates a raised exception.  `hypothesis_generation` has no safeExecute
wrapper: called on the initial state (stage Observation), the
InvalidTransitionError thrown by the transition check crosses the boundary as
a raised error instead of being converted to error text. -/
theorem hypothesis_generation_throws_across_boundary :
    (hypothesis_generation getInitialState (fun i => "gid" ++ toString i)
        ["a first competing hypothesis"]).outcome =
      Outcome.threw "Invalid transition from observation to hypothesis_formation. Allowed transitions: literature_review" := by
  decide

/-- C2 (amended): the safeExecute-wrapped operations (`observation`,
`literature_review`, `hypothesis_formation`, `score_hypothesis`,
`check_for_breakthrough`, `get_state`, `data_analysis`) always deliver a
returned text payload, and `conclusion` (unwrapped, but unable to throw)
always returns its fixed text; the remaining four (`hypothesis_generation`,
`experiment_design`, `data_collection`, `analysis`) are not wrapped and
propagate a thrown error exactly when their stage transition is illegal from
the current stage. -/
theorem dispatcher_error_conversion :
    (∀ (s : ResearchState) (ps : String),
      ∃ t, (observation s ps).outcome = Outcome.returned t) ∧
    (∀ (s : ResearchState) (lit : String) (autoSearch : Bool),
      ∃ t, (literature_review s lit autoSearch).outcome = Outcome.returned t) ∧
    (∀ (s : ResearchState) (newId hyp : String),
      ∃ t, (hypothesis_formation s newId hyp).outcome = Outcome.returned t) ∧
    (∀ (s : ResearchState) (hid : String) (score : ℚ),
      ∃ t, (score_hypothesis s hid score).outcome = Outcome.returned t) ∧
    (∀ s : ResearchState, ∃ t, (check_for_breakthrough s).outcome = Outcome.returned t) ∧
    (∀ s : ResearchState, ∃ t, (get_state s).outcome = Outcome.returned t) ∧
    (∀ (s : ResearchState) (q : String),
      ∃ t, (literature_search s q).outcome = Outcome.returned t) ∧
    (∀ (s : ResearchState) (data : List String),
      ∃ t, (data_analysis s data).outcome = Outcome.returned t) ∧
    (∀ (s : ResearchState) (c : String),
      (conclusion s c).outcome = Outcome.returned "Conclusion drawn. Research complete.") ∧
    (∀ (s : ResearchState) (gen : Nat → String) (hyps : List String),
      (∃ m, (hypothesis_generation s gen hyps).outcome = Outcome.threw m) ↔
        Stage.HypothesisFormation ∉ STAGE_TRANSITIONS s.currentStage) ∧
    (∀ (s : ResearchState) (e : String),
      (∃ m, (experiment_design s e).outcome = Outcome.threw m) ↔
        Stage.DataCollection ∉ STAGE_TRANSITIONS s.currentStage) ∧
    (∀ (s : ResearchState) (d : String),
      (∃ m, (data_collection s d).outcome = Outcome.threw m) ↔
        Stage.Analysis ∉ STAGE_TRANSITIONS s.currentStage) ∧
    (∀ (s : ResearchState) (a : String),
      (∃ m, (analysis s a).outcome = Outcome.threw m) ↔
        Stage.Conclusion ∉ STAGE_TRANSITIONS s.currentStage) := by
  refine ⟨fun s ps => safeExecute_returned _ _,
    fun s lit a => safeExecute_returned _ _,
    fun s i h => safeExecute_returned _ _,
    fun s hid sc => safeExecute_returned _ _,
    fun s => safeExecute_returned _ _,
    fun s => safeExecute_returned _ _,
    fun s q => safeExecute_returned _ _,
    fun s d => safeExecute_returned _ _,
    fun s c => rfl, ?_, ?_, ?_, ?_⟩
  · intro s gen hyps
    by_cases hmem : Stage.HypothesisFormation ∈ STAGE_TRANSITIONS s.currentStage
    · have ht : transitionTo { s with hypotheses := s.hypotheses ++ generatedHypotheses gen hyps }
          Stage.HypothesisFormation = Except.ok
            { s with
              hypotheses := s.hypotheses ++ generatedHypotheses gen hyps
              currentStage := Stage.HypothesisFormation } :=
        transitionTo_mem _ _ hmem
      simp only [hypothesis_generation, hypothesisGenerationBody, ht, rawExecute]
      simp [hmem]
    · have ht : transitionTo { s with hypotheses := s.hypotheses ++ generatedHypotheses gen hyps }
          Stage.HypothesisFormation = Except.error (invalidTransitionMsg s.currentStage
            Stage.HypothesisFormation (STAGE_TRANSITIONS s.currentStage)) :=
        transitionTo_not_mem _ _ hmem
      simp only [hypothesis_generation, hypothesisGenerationBody, ht, rawExecute]
      simp [hmem]
  · intro s e
    by_cases hmem : Stage.DataCollection ∈ STAGE_TRANSITIONS s.currentStage
    · have ht : transitionTo { s with experiments := s.experiments ++ [e] }
          Stage.DataCollection = Except.ok
            { s with
              experiments := s.experiments ++ [e]
              currentStage := Stage.DataCollection } :=
        transitionTo_mem _ _ hmem
      simp only [experiment_design, experimentDesignBody, ht, rawExecute]
      simp [hmem]
    · have ht : transitionTo { s with experiments := s.experiments ++ [e] }
          Stage.DataCollection = Except.error (invalidTransitionMsg s.currentStage
            Stage.DataCollection (STAGE_TRANSITIONS s.currentStage)) :=
        transitionTo_not_mem _ _ hmem
      simp only [experiment_design, experimentDesignBody, ht, rawExecute]
      simp [hmem]
  · intro s d
    by_cases hmem : Stage.Analysis ∈ STAGE_TRANSITIONS s.currentStage
    · have ht : transitionTo { s with data := s.data ++ [d] } Stage.Analysis =
          Except.ok { s with data := s.data ++ [d], currentStage := Stage.Analysis } :=
        transitionTo_mem _ _ hmem
      simp only [data_collection, dataCollectionBody, ht, rawExecute]
      simp [hmem]
    · have ht : transitionTo { s with data := s.data ++ [d] } Stage.Analysis =
          Except.error (invalidTransitionMsg s.currentStage Stage.Analysis
            (STAGE_TRANSITIONS s.currentStage)) :=
        transitionTo_not_mem _ _ hmem
      simp only [data_collection, dataCollectionBody, ht, rawExecute]
      simp [hmem]
  · intro s a
    by_cases hmem : Stage.Conclusion ∈ STAGE_TRANSITIONS s.currentStage
    · have ht : transitionTo { s with analysis := some a } Stage.Conclusion =
          Except.ok { s with analysis := some a, currentStage := Stage.Conclusion } :=
        transitionTo_mem _ _ hmem
      simp only [analysis, analysisBody, ht, rawExecute]
      simp [hmem]
    · have ht : transitionTo { s with analysis := some a } Stage.Conclusion =
          Except.error (invalidTransitionMsg s.currentStage Stage.Conclusion
            (STAGE_TRANSITIONS s.currentStage)) :=
        transitionTo_not_mem _ _ hmem
      simp only [analysis, analysisBody, ht, rawExecute]
      simp [hmem]

/-- C2 witness: both conversion modes of the amended claim instantiated at
the initial state — a wrapped operation returns text, and an unwrapped one
throws exactly because its transition is illegal from Observation. -/
theorem dispatcher_error_conversion_witness :
    (∃ t, (observation getInitialState "short").outcome = Outcome.returned t) ∧
    ((∃ m, (experiment_design getInitialState "an experiment").outcome = Outcome.threw m) ↔
      Stage.DataCollection ∉ STAGE_TRANSITIONS getInitialState.currentStage) :=
  ⟨dispatcher_error_conversion.1 getInitialState "short",
   dispatcher_error_conversion.2.2.2.2.2.2.2.2.2.2.1 getInitialState "an experiment"⟩

/-! ## C3: single assignment of the problem statement -/

/-- C3, counterexample.  The claim says that once a successful `observation`
has set `problemStatement`, no subsequent operation — a second `observation`
call included, "whether it succeeds or fails" — changes it.  But a second
`observation` call overwrites `problemStatement` before its transition check
runs, so the overwrite survives even though the call fails with the
invalid-transition error. -/
theorem second_observation_overwrites_problem_statement :
    (observation getInitialState "first problem statement").state.problemStatement
        = some "first problem statement" ∧
    (observation getInitialState "first problem statement").outcome
        = Outcome.returned "Observation recorded. Current stage: literature_review" ∧
    (observation (observation getInitialState "first problem statement").state
        "second problem statement").outcome
        = Outcome.returned "Error in observation: Invalid transition from literature_review to literature_review. Allowed transitions: hypothesis_formation" ∧
    (observation (observation getInitialState "first problem statement").state
        "second problem statement").state.problemStatement
        = some "second problem statement" := by
  refine ⟨?_, ?_, ?_, ?_⟩ <;> decide

/-- C3 (amended): no operation other than `observation` ever changes the
stored `problemStatement`; a later `observation` call with valid input
overwrites it (even when the call fails its transition check), and an
`observation` call with invalid input leaves the whole state unchanged. -/
theorem problem_statement_only_observation_writes :
    (∀ (s : ResearchState) (lit : String) (autoSearch : Bool),
      (literature_review s lit autoSearch).state.problemStatement = s.problemStatement) ∧
    (∀ (s : ResearchState) (newId hyp : String),
      (hypothesis_formation s newId hyp).state.problemStatement = s.problemStatement) ∧
    (∀ (s : ResearchState) (gen : Nat → String) (hyps : List String),
      (hypothesis_generation s gen hyps).state.problemStatement = s.problemStatement) ∧
    (∀ (s : ResearchState) (e : String),
      (experiment_design s e).state.problemStatement = s.problemStatement) ∧
    (∀ (s : ResearchState) (d : String),
      (data_collection s d).state.problemStatement = s.problemStatement) ∧
    (∀ (s : ResearchState) (a : String),
      (analysis s a).state.problemStatement = s.problemStatement) ∧
    (∀ (s : ResearchState) (c : String),
      (conclusion s c).state.problemStatement = s.problemStatement) ∧
    (∀ (s : ResearchState) (q : String),
      (literature_search s q).state.problemStatement = s.problemStatement) ∧
    (∀ (s : ResearchState) (data : List String),
      (data_analysis s data).state.problemStatement = s.problemStatement) ∧
    (∀ (s : ResearchState) (hid : String) (score : ℚ),
      (score_hypothesis s hid score).state.problemStatement = s.problemStatement) ∧
    (∀ s : ResearchState,
      (check_for_breakthrough s).state.problemStatement = s.problemStatement) ∧
    (∀ s : ResearchState, (get_state s).state.problemStatement = s.problemStatement) ∧
    (∀ (s : ResearchState) (ps : String), 10 ≤ ps.length →
      (observation s ps).state.problemStatement = some ps) ∧
    (∀ (s : ResearchState) (ps : String), ¬ 10 ≤ ps.length →
      (observation s ps).state = s) := by
  refine ⟨?_, ?_, ?_, ?_, ?_, ?_, ?_, ?_, ?_, ?_, ?_, ?_, ?_, ?_⟩
  · intro s lit a
    rw [literature_review, safeExecute_state]
    unfold literatureReviewBody transitionTo
    try dsimp only
    repeat' split
    all_goals try rfl
    all_goals (rename_i x s2 heq; rw [ite_transition_ok heq]; try rfl)
  · intro s newId hyp
    rw [hypothesis_formation, safeExecute_state]
    unfold hypothesisFormationBody transitionTo
    try dsimp only
    repeat' split
    all_goals try rfl
    all_goals (rename_i x s2 heq; rw [ite_transition_ok heq]; try rfl)
  · intro s gen hyps
    rw [hypothesis_generation, rawExecute_state]
    unfold hypothesisGenerationBody transitionTo
    try dsimp only
    repeat' split
    all_goals try rfl
    all_goals (rename_i x s2 heq; rw [ite_transition_ok heq]; try rfl)
  · intro s e
    rw [experiment_design, rawExecute_state]
    unfold experimentDesignBody transitionTo
    try dsimp only
    repeat' split
    all_goals try rfl
    all_goals (rename_i x s2 heq; rw [ite_transition_ok heq]; try rfl)
  · intro s d
    rw [data_collection, rawExecute_state]
    unfold dataCollectionBody transitionTo
    try dsimp only
    repeat' split
    all_goals try rfl
    all_goals (rename_i x s2 heq; rw [ite_transition_ok heq]; try rfl)
  · intro s a
    rw [analysis, rawExecute_state]
    unfold analysisBody transitionTo
    try dsimp only
    repeat' split
    all_goals try rfl
    all_goals (rename_i x s2 heq; rw [ite_transition_ok heq]; try rfl)
  · intro s c
    rw [conclusion, rawExecute_state]
  · intro s q
    rw [literature_search, safeExecute_state]
    unfold literatureSearchBody
    try dsimp only
    repeat' split
    all_goals rfl
  · intro s data
    rw [data_analysis, safeExecute_state]
    unfold dataAnalysisBody
    try dsimp only
    repeat' split
    all_goals rfl
  · intro s hid score
    rw [score_hypothesis, safeExecute_state]
    unfold scoreHypothesisBody
    try dsimp only
    repeat' split
    all_goals rfl
  · intro s
    rw [check_for_breakthrough, safeExecute_state]
    unfold checkForBreakthroughBody
    try dsimp only
    repeat' split
    all_goals rfl
  · intro s
    rw [get_state, safeExecute_state]
  · intro s ps hlen
    have hne : ps ≠ "" := by
      intro h
      subst h
      exact absurd hlen (by decide)
    have hlt : ¬ ps.length < 10 := by omega
    rw [observation, safeExecute_state]
    unfold observationBody transitionTo
    rw [if_neg hne, if_neg hlt]
    try dsimp only
    repeat' split
    all_goals try rfl
    all_goals (rename_i x s2 heq; rw [ite_transition_ok heq]; try rfl)
  · intro s ps hlen
    have hne : ps = "" ∨ ps.length < 10 := by
      by_cases h : ps = ""
      · exact Or.inl h
      · exact Or.inr (by omega)
    rw [observation, safeExecute_state]
    unfold observationBody
    rcases hne with h | h
    · rw [if_pos h]
    · by_cases h0 : ps = ""
      · rw [if_pos h0]
      · rw [if_neg h0, if_pos h]

/-- C3 witness: the `observation` conjuncts instantiated at concrete inputs —
a valid re-observation overwrites, an invalid one leaves the state intact. -/
theorem problem_statement_only_observation_writes_witness :
    (observation terminalState "a problem statement").state.problemStatement
        = some "a problem statement" ∧
    (observation terminalState "too short").state = terminalState := by
  obtain ⟨-, -, -, -, -, -, -, -, -, -, -, -, h13, h14⟩ :=
    problem_statement_only_observation_writes
  exact ⟨h13 terminalState "a problem statement" (by decide),
    h14 terminalState "too short" (by decide)⟩

/-! ## C4: append-only evolution of the sequence fields -/

/-- C4 (confirmed): every engine operation, on every state and input, only
appends to the `literature`/`experiments`/`data`/`conclusions` sequences (the
value before the call is a prefix of the value after it), and preserves the
ids and descriptions of all existing hypotheses as a prefix — only an
existing hypothesis's `evidenceScore` can change (`score_hypothesis`). -/
theorem operations_append_only :
    (∀ (s : ResearchState) (ps : String), AppendOnly s (observation s ps).state) ∧
    (∀ (s : ResearchState) (lit : String) (autoSearch : Bool),
      AppendOnly s (literature_review s lit autoSearch).state) ∧
    (∀ (s : ResearchState) (newId hyp : String),
      AppendOnly s (hypothesis_formation s newId hyp).state) ∧
    (∀ (s : ResearchState) (gen : Nat → String) (hyps : List String),
      AppendOnly s (hypothesis_generation s gen hyps).state) ∧
    (∀ (s : ResearchState) (e : String), AppendOnly s (experiment_design s e).state) ∧
    (∀ (s : ResearchState) (d : String), AppendOnly s (data_collection s d).state) ∧
    (∀ (s : ResearchState) (a : String), AppendOnly s (analysis s a).state) ∧
    (∀ (s : ResearchState) (c : String), AppendOnly s (conclusion s c).state) ∧
    (∀ (s : ResearchState) (q : String), AppendOnly s (literature_search s q).state) ∧
    (∀ (s : ResearchState) (data : List String), AppendOnly s (data_analysis s data).state) ∧
    (∀ (s : ResearchState) (hid : String) (score : ℚ),
      AppendOnly s (score_hypothesis s hid score).state) ∧
    (∀ s : ResearchState, AppendOnly s (check_for_breakthrough s).state) ∧
    (∀ s : ResearchState, AppendOnly s (get_state s).state) := by
  refine ⟨?_, ?_, ?_, ?_, ?_, ?_, ?_, ?_, ?_, ?_, ?_, ?_, ?_⟩
  · intro s ps
    rw [observation, safeExecute_state]
    unfold observationBody
    try dsimp only
    repeat' split
    all_goals try exact appendOnly_rfl _
    all_goals try (rename_i x s2 heq; rw [ite_transition_ok heq])
    all_goals refine ⟨?_, ?_, ?_, ?_, ?_⟩
    all_goals simp only [updateFirstHypothesis_keys, List.map_append]
    all_goals first
      | exact List.prefix_rfl
      | exact List.prefix_append _ _
  · intro s lit a
    rw [literature_review, safeExecute_state]
    unfold literatureReviewBody
    try dsimp only
    repeat' split
    all_goals try exact appendOnly_rfl _
    all_goals try (rename_i x s2 heq; rw [ite_transition_ok heq])
    all_goals refine ⟨?_, ?_, ?_, ?_, ?_⟩
    all_goals simp only [updateFirstHypothesis_keys, List.map_append]
    all_goals first
      | exact List.prefix_rfl
      | exact List.prefix_append _ _
  · intro s newId hyp
    rw [hypothesis_formation, safeExecute_state]
    unfold hypothesisFormationBody
    try dsimp only
    repeat' split
    all_goals try exact appendOnly_rfl _
    all_goals try (rename_i x s2 heq; rw [ite_transition_ok heq])
    all_goals refine ⟨?_, ?_, ?_, ?_, ?_⟩
    all_goals simp only [updateFirstHypothesis_keys, List.map_append]
    all_goals first
      | exact List.prefix_rfl
      | exact List.prefix_append _ _
  · intro s gen hyps
    rw [hypothesis_generation, rawExecute_state]
    unfold hypothesisGenerationBody
    try dsimp only
    repeat' split
    all_goals try exact appendOnly_rfl _
    all_goals try (rename_i x s2 heq; rw [ite_transition_ok heq])
    all_goals refine ⟨?_, ?_, ?_, ?_, ?_⟩
    all_goals simp only [updateFirstHypothesis_keys, List.map_append]
    all_goals first
      | exact List.prefix_rfl
      | exact List.prefix_append _ _
  · intro s e
    rw [experiment_design, rawExecute_state]
    unfold experimentDesignBody
    try dsimp only
    repeat' split
    all_goals try exact appendOnly_rfl _
    all_goals try (rename_i x s2 heq; rw [ite_transition_ok heq])
    all_goals refine ⟨?_, ?_, ?_, ?_, ?_⟩
    all_goals simp only [updateFirstHypothesis_keys, List.map_append]
    all_goals first
      | exact List.prefix_rfl
      | exact List.prefix_append _ _
  · intro s d
    rw [data_collection, rawExecute_state]
    unfold dataCollectionBody
    try dsimp only
    repeat' split
    all_goals try exact appendOnly_rfl _
    all_goals try (rename_i x s2 heq; rw [ite_transition_ok heq])
    all_goals refine ⟨?_, ?_, ?_, ?_, ?_⟩
    all_goals simp only [updateFirstHypothesis_keys, List.map_append]
    all_goals first
      | exact List.prefix_rfl
      | exact List.prefix_append _ _
  · intro s a
    rw [analysis, rawExecute_state]
    unfold analysisBody
    try dsimp only
    repeat' split
    all_goals try exact appendOnly_rfl _
    all_goals try (rename_i x s2 heq; rw [ite_transition_ok heq])
    all_goals refine ⟨?_, ?_, ?_, ?_, ?_⟩
    all_goals simp only [updateFirstHypothesis_keys, List.map_append]
    all_goals first
      | exact List.prefix_rfl
      | exact List.prefix_append _ _
  · intro s c
    rw [conclusion, rawExecute_state]
    refine ⟨?_, ?_, ?_, ?_, ?_⟩
    all_goals first
      | exact List.prefix_rfl
      | exact List.prefix_append _ _
  · intro s q
    rw [literature_search, safeExecute_state]
    unfold literatureSearchBody
    try dsimp only
    repeat' split
    all_goals try exact appendOnly_rfl _
    all_goals refine ⟨?_, ?_, ?_, ?_, ?_⟩
    all_goals first
      | exact List.prefix_rfl
      | exact List.prefix_append _ _
  · intro s data
    rw [data_analysis, safeExecute_state]
    unfold dataAnalysisBody
    try dsimp only
    repeat' split
    all_goals try exact appendOnly_rfl _
    all_goals refine ⟨?_, ?_, ?_, ?_, ?_⟩
    all_goals first
      | exact List.prefix_rfl
      | exact List.prefix_append _ _
  · intro s hid score
    rw [score_hypothesis, safeExecute_state]
    unfold scoreHypothesisBody
    try dsimp only
    repeat' split
    all_goals try exact appendOnly_rfl _
    all_goals refine ⟨?_, ?_, ?_, ?_, ?_⟩
    all_goals simp only [updateFirstHypothesis_keys]
    all_goals exact List.prefix_rfl
  · intro s
    rw [check_for_breakthrough, safeExecute_state]
    unfold checkForBreakthroughBody
    try dsimp only
    repeat' split
    all_goals exact appendOnly_rfl _
  · intro s
    rw [get_state, safeExecute_state]
    exact appendOnly_rfl _

/-- C4 witness: append-only evolution instantiated at the initial state for a
successful observation and a hypothesis scoring call. -/
theorem operations_append_only_witness :
    AppendOnly getInitialState (observation getInitialState "a problem statement").state ∧
    AppendOnly getInitialState (score_hypothesis getInitialState "h1" (1/2)).state :=
  ⟨operations_append_only.1 getInitialState "a problem statement",
   operations_append_only.2.2.2.2.2.2.2.2.2.2.1 getInitialState "h1" (1/2)⟩

/-! ## C5: hypothesis_generation and the empty sequence -/

/-- C5, counterexample.  The claim says `hypothesis_generation` fails with a
validation error on an empty sequence, appending nothing and performing no
transition.  The source has no such validation: on an empty sequence from the
LiteratureReview stage the call succeeds, appends nothing — and still
performs the self-transition into HypothesisFormation. -/
theorem hypothesis_generation_empty_no_validation :
    hypothesis_generation { getInitialState with currentStage := Stage.LiteratureReview }
        (fun i => "gid" ++ toString i) [] =
      ⟨{ getInitialState with currentStage := Stage.HypothesisFormation },
       Outcome.returned "Generated 0 hypotheses. Current stage: hypothesis_formation"⟩ := by
  decide

/-- C5 (amended): `hypothesis_generation` performs no emptiness validation.
For every sequence of hypothesis texts (the empty one included), whenever the
self-transition into HypothesisFormation is legal from the current stage the
call succeeds, appends exactly one hypothesis per entry — each with
`evidenceScore` 0 — and moves `currentStage` to HypothesisFormation; the
empty sequence appends nothing but still transitions. -/
theorem hypothesis_generation_appends_and_self_transitions
    (s : ResearchState) (gen : Nat → String) (hyps : List String)
    (h : Stage.HypothesisFormation ∈ STAGE_TRANSITIONS s.currentStage) :
    hypothesis_generation s gen hyps =
      ⟨{ s with
          currentStage := Stage.HypothesisFormation
          hypotheses := s.hypotheses ++ generatedHypotheses gen hyps },
       Outcome.returned ("Generated " ++ toString hyps.length ++
         " hypotheses. Current stage: hypothesis_formation")⟩ ∧
    (generatedHypotheses gen hyps).length = hyps.length ∧
    (∀ hh ∈ generatedHypotheses gen hyps, hh.evidenceScore = 0) := by
  refine ⟨?_, ?_, ?_⟩
  · have ht : transitionTo { s with hypotheses := s.hypotheses ++ generatedHypotheses gen hyps }
        Stage.HypothesisFormation = Except.ok
          { s with
            hypotheses := s.hypotheses ++ generatedHypotheses gen hyps
            currentStage := Stage.HypothesisFormation } :=
      transitionTo_mem _ _ h
    simp only [hypothesis_generation, hypothesisGenerationBody, ht, rawExecute]
    rw [String.append_assoc]
    simp [stageName]
  · simp [generatedHypotheses]
  · intro hh hmem
    simp only [generatedHypotheses, List.mem_map] at hmem
    obtain ⟨p, -, hp⟩ := hmem
    rw [← hp]
    rfl

/-- C5 witness: two hypotheses generated from the LiteratureReview stage,
appended with score 0, with the self-transition taken. -/
theorem hypothesis_generation_appends_and_self_transitions_witness :
    hypothesis_generation { getInitialState with currentStage := Stage.LiteratureReview }
        (fun i => "gid" ++ toString i) ["first competing hypothesis", "second competing hypothesis"] =
      ⟨{ getInitialState with
          currentStage := Stage.HypothesisFormation
          hypotheses := [mkHypothesis "gid0" "first competing hypothesis",
            mkHypothesis "gid1" "second competing hypothesis"] },
       Outcome.returned "Generated 2 hypotheses. Current stage: hypothesis_formation"⟩ := by
  have h := (hypothesis_generation_appends_and_self_transitions
    { getInitialState with currentStage := Stage.LiteratureReview }
    (fun i => "gid" ++ toString i)
    ["first competing hypothesis", "second competing hypothesis"] (by decide)).1
  exact h.trans (by decide)

/-! ## C6: the statistical analysis operation's failure guards -/

/-- C6 (confirmed): `data_analysis` with fewer than 2 entries always fails
with the minimum-size validation error, and with at least 2 entries none of
which yields a parseable number it always fails with the
insufficient-data error; in both cases the error is returned as text and the
state — `analysis` summary included — is untouched, so no statistics are
produced. -/
theorem data_analysis_failure_guards (s : ResearchState) (data : List String) :
    (data.length < 2 →
      data_analysis s data =
        ⟨s, Outcome.returned "Error in data_analysis: At least 2 data points are required for statistical analysis"⟩) ∧
    (2 ≤ data.length → parseDataPoints data = [] →
      data_analysis s data =
        ⟨s, Outcome.returned "Error in data_analysis: No valid numeric data found for analysis"⟩) := by
  constructor
  · intro h
    simp only [data_analysis, dataAnalysisBody, if_pos h, safeExecute]
    rfl
  · intro h hp
    have hlt : ¬ data.length < 2 := by omega
    simp only [data_analysis, dataAnalysisBody, if_neg hlt, hp, safeExecute,
      List.length_nil, if_pos]
    rfl

/-- C6 witness: a single data point trips the size guard; two non-numeric
points parse to no numbers and trip the insufficient-data guard. -/
theorem data_analysis_failure_guards_witness :
    data_analysis getInitialState ["only one"] =
      ⟨getInitialState, Outcome.returned "Error in data_analysis: At least 2 data points are required for statistical analysis"⟩ ∧
    data_analysis getInitialState ["abc", "def"] =
      ⟨getInitialState, Outcome.returned "Error in data_analysis: No valid numeric data found for analysis"⟩ := by
  constructor
  · exact (data_analysis_failure_guards getInitialState ["only one"]).1 (by decide)
  · exact (data_analysis_failure_guards getInitialState ["abc", "def"]).2 (by decide) (by decide)

/-! ## C7: percentile at p = 1/2 is the median -/

/-- C7 (confirmed): on every non-empty sequence, `percentile` at `p = 1/2`
returns the middle element when the length is odd and the mean of the two
middle elements when the length is even.  (Sortedness plays no role in the
interpolation identity, so the statement holds for every sequence, sorted
ones included.) -/
theorem percentile_median (l : List ℚ) (h : l ≠ []) :
    (l.length % 2 = 1 → percentile l (1/2) = l.getD (l.length / 2) 0) ∧
    (l.length % 2 = 0 → percentile l (1/2) =
      (l.getD (l.length / 2 - 1) 0 + l.getD (l.length / 2) 0) / 2) := by
  constructor
  · intro hodd
    obtain ⟨k, hk⟩ : ∃ k, l.length = 2 * k + 1 := ⟨l.length / 2, by omega⟩
    have hidx : (1/2 : ℚ) * ((l.length : ℚ) - 1) = ((k : ℤ) : ℚ) := by
      rw [hk]
      push_cast
      ring
    have hfl : ⌊(1/2 : ℚ) * ((l.length : ℚ) - 1)⌋ = (k : ℤ) := by
      rw [hidx]
      exact Int.floor_intCast _
    have hcl : ⌈(1/2 : ℚ) * ((l.length : ℚ) - 1)⌉ = (k : ℤ) := by
      rw [hidx]
      exact Int.ceil_intCast _
    have hton : ((k : ℤ)).toNat = k := by omega
    have hdiv : l.length / 2 = k := by omega
    unfold percentile
    dsimp only
    rw [hfl, hcl, if_pos rfl, hton, hdiv]
  · intro heven
    obtain ⟨k, hk⟩ : ∃ k, l.length = 2 * k := ⟨l.length / 2, by omega⟩
    have hlen0 : l.length ≠ 0 := by
      intro h0
      exact h (List.eq_nil_of_length_eq_zero h0)
    have hkpos : 1 ≤ k := by omega
    have hidx : (1/2 : ℚ) * ((l.length : ℚ) - 1) = ((k : ℤ) : ℚ) - 1/2 := by
      rw [hk]
      push_cast
      ring
    have hfl : ⌊(1/2 : ℚ) * ((l.length : ℚ) - 1)⌋ = (k : ℤ) - 1 := by
      rw [hidx, Int.floor_eq_iff]
      constructor
      · push_cast
        linarith
      · push_cast
        linarith
    have hcl : ⌈(1/2 : ℚ) * ((l.length : ℚ) - 1)⌉ = (k : ℤ) := by
      rw [hidx, Int.ceil_eq_iff]
      constructor
      · push_cast
        linarith
      · push_cast
        linarith
    have hne2 : (k : ℤ) - 1 ≠ (k : ℤ) := by omega
    have ht1 : ((k : ℤ) - 1).toNat = k - 1 := by omega
    have ht2 : ((k : ℤ)).toNat = k := by omega
    have hdiv : l.length / 2 = k := by omega
    have hw : (1/2 : ℚ) * ((l.length : ℚ) - 1) - (((k : ℤ) - 1 : ℤ) : ℚ) = 1/2 := by
      rw [hidx]
      push_cast
      ring
    unfold percentile
    dsimp only
    rw [hfl, hcl, if_neg hne2, ht1, ht2, hdiv, hw]
    ring

/-- C7 witness: the theorem applied to the odd-length `[1, 2, 3]` and the
even-length `[1, 2, 3, 4]`, with the order statistics evaluated. -/
theorem percentile_median_witness :
    percentile [1, 2, 3] (1/2) = 2 ∧ percentile [1, 2, 3, 4] (1/2) = 5/2 := by
  have h1 := (percentile_median [1, 2, 3] (by decide)).1 (by decide)
  have h2 := (percentile_median [1, 2, 3, 4] (by decide)).2 (by decide)
  constructor
  · exact h1.trans (by norm_num [List.getD])
  · exact h2.trans (by norm_num [List.getD])

/-! ## C8: correlation and regression degrade to empty lists below n = 4 -/

/-- C8 (confirmed): for every input of fewer than 4 values, whatever the
values, `calculateCorrelations` and `performRegressionAnalysis` both return
the empty list instead of raising. -/
theorem correlation_regression_empty_below_four (data : List ℚ) (h : data.length < 4) :
    calculateCorrelations data = [] ∧ performRegressionAnalysis data = [] := by
  constructor
  · unfold calculateCorrelations
    rw [if_pos h]
  · unfold performRegressionAnalysis
    rw [if_pos h]

/-- C8 witness: a three-value input yields two empty result lists. -/
theorem correlation_regression_empty_below_four_witness :
    calculateCorrelations [1, 2, 3] = [] ∧ performRegressionAnalysis [1, 2, 3] = [] :=
  correlation_regression_empty_below_four [1, 2, 3] (by decide)

/-! ## C9: breakthrough tiers -/

/-- C9 (confirmed): `check_for_breakthrough` never mutates the state; with no
hypotheses it returns the graceful "no hypotheses" message; otherwise it
reports the mean evidence score together with the tier suffix, and the tier
selection realizes exactly the four claimed intervals: breakthrough iff the
mean is at least 0.8, strong iff it lies in [0.6, 0.8), moderate iff it lies
in [0.4, 0.6), low otherwise. -/
theorem check_for_breakthrough_tiers (s : ResearchState) :
    (check_for_breakthrough s).state = s ∧
    (s.hypotheses = [] →
      (check_for_breakthrough s).outcome = Outcome.returned noHypothesesMsg) ∧
    (s.hypotheses ≠ [] →
      (check_for_breakthrough s).outcome = Outcome.returned
        ("Current average evidence score across all hypotheses: " ++
          jsToFixed2 (averageEvidence s.hypotheses) ++ "." ++
          breakthroughStatus (averageEvidence s.hypotheses))) ∧
    (∀ q : ℚ,
      (breakthroughStatus q = breakthroughMsg ↔ 8/10 ≤ q) ∧
      (breakthroughStatus q = strongMsg ↔ 6/10 ≤ q ∧ q < 8/10) ∧
      (breakthroughStatus q = moderateMsg ↔ 4/10 ≤ q ∧ q < 6/10) ∧
      (breakthroughStatus q = lowMsg ↔ q < 4/10)) := by
  refine ⟨?_, ?_, ?_, ?_⟩
  · rw [check_for_breakthrough, safeExecute_state]
    unfold checkForBreakthroughBody
    dsimp only
    split <;> rfl
  · intro he
    rw [check_for_breakthrough]
    unfold checkForBreakthroughBody
    rw [if_pos (by rw [he]; rfl : s.hypotheses.length = 0)]
    rfl
  · intro hne
    rw [check_for_breakthrough]
    unfold checkForBreakthroughBody
    rw [if_neg (fun h0 => hne (List.eq_nil_of_length_eq_zero h0))]
    rfl
  · intro q
    unfold breakthroughStatus
    split_ifs with h1 h2 h3
    all_goals refine ⟨⟨?_, ?_⟩, ⟨?_, ?_⟩, ⟨?_, ?_⟩, ⟨?_, ?_⟩⟩
    all_goals first
      | (intro hx; exact absurd hx (by decide))
      | (intro hx; rfl)
      | (intro hx; exact hx)
      | (intro hx; linarith)
      | (intro hx; constructor <;> linarith)
      | (intro hx; exfalso; rcases hx with ⟨ha, hb⟩; linarith)
      | (intro hx; exfalso; linarith)

/-- C9 witness: scores [0.9, 0.9] report the breakthrough tier, scores
[0.1, 0.1] report the low-evidence tier, and the empty state reports the
graceful "no hypotheses" message — each obtained from the theorem with the
mean and its rendering evaluated. -/
theorem check_for_breakthrough_tiers_witness :
    (check_for_breakthrough { getInitialState with hypotheses :=
        [mkHypothesis "h1" "first hypothesis text", mkHypothesis "h2" "second hypothesis text"] }).outcome
      = Outcome.returned "Current average evidence score across all hypotheses: 0.00. 🔍 Low evidence. Consider refining hypotheses." ∧
    (check_for_breakthrough { getInitialState with hypotheses :=
        [{ id := "h1", description := "first hypothesis text", evidenceScore := 9/10 },
         { id := "h2", description := "second hypothesis text", evidenceScore := 9/10 }] }).outcome
      = Outcome.returned "Current average evidence score across all hypotheses: 0.90. 🎉 POTENTIAL BREAKTHROUGH DETECTED! High confidence in hypotheses." ∧
    (check_for_breakthrough { getInitialState with hypotheses :=
        [{ id := "h1", description := "first hypothesis text", evidenceScore := 1/10 },
         { id := "h2", description := "second hypothesis text", evidenceScore := 1/10 }] }).outcome
      = Outcome.returned "Current average evidence score across all hypotheses: 0.10. 🔍 Low evidence. Consider refining hypotheses." ∧
    (check_for_breakthrough getInitialState).outcome = Outcome.returned noHypothesesMsg := by
  refine ⟨?_, ?_, ?_, ?_⟩
  · have h := (check_for_breakthrough_tiers { getInitialState with hypotheses :=
      [mkHypothesis "h1" "first hypothesis text", mkHypothesis "h2" "second hypothesis text"] }).2.2.1
      (by decide)
    rw [h]
    have havg : averageEvidence [mkHypothesis "h1" "first hypothesis text",
        mkHypothesis "h2" "second hypothesis text"] = 0 := by
      norm_num [averageEvidence, mkHypothesis]
    rw [havg]
    have hfix : jsToFixed2 0 = "0.00" := by
      norm_num [jsToFixed2, jsRound]
      decide
    have hst : breakthroughStatus 0 = lowMsg := by
      norm_num [breakthroughStatus]
    rw [hfix, hst]
    rfl
  · have h := (check_for_breakthrough_tiers { getInitialState with hypotheses :=
      [{ id := "h1", description := "first hypothesis text", evidenceScore := 9/10 },
       { id := "h2", description := "second hypothesis text", evidenceScore := 9/10 }] }).2.2.1
      (by decide)
    rw [h]
    have havg : averageEvidence
        [{ id := "h1", description := "first hypothesis text", evidenceScore := (9/10 : ℚ) },
         { id := "h2", description := "second hypothesis text", evidenceScore := (9/10 : ℚ) }] = 9/10 := by
      norm_num [averageEvidence]
    rw [havg]
    have hfix : jsToFixed2 (9/10) = "0.90" := by
      norm_num [jsToFixed2, jsRound]
      decide
    have hst : breakthroughStatus (9/10) = breakthroughMsg := by
      norm_num [breakthroughStatus]
    rw [hfix, hst]
    rfl
  · have h := (check_for_breakthrough_tiers { getInitialState with hypotheses :=
      [{ id := "h1", description := "first hypothesis text", evidenceScore := 1/10 },
       { id := "h2", description := "second hypothesis text", evidenceScore := 1/10 }] }).2.2.1
      (by decide)
    rw [h]
    have havg : averageEvidence
        [{ id := "h1", description := "first hypothesis text", evidenceScore := (1/10 : ℚ) },
         { id := "h2", description := "second hypothesis text", evidenceScore := (1/10 : ℚ) }] = 1/10 := by
      norm_num [averageEvidence]
    rw [havg]
    have hfix : jsToFixed2 (1/10) = "0.10" := by
      norm_num [jsToFixed2, jsRound]
      decide
    have hst : breakthroughStatus (1/10) = lowMsg := by
      norm_num [breakthroughStatus]
    rw [hfix, hst]
    rfl
  · exact (check_for_breakthrough_tiers getInitialState).2.1 rfl

/-! ## C10: the unguarded Pearson division on constant data -/

/-- C10 (confirmed): `[5, 5, 5, 5]` passes the `n < 4` guard (and the
pairs-count guard), so `calculateCorrelations` does not return the empty
list; it produces exactly one entry whose Pearson numerator and squared
denominator are both 0 — the unguarded JS division is `0 / Math.sqrt(0)`,
i.e. `0 / 0 = NaN`, not a well-defined real number. -/
theorem constant_data_correlation_undefined :
    calculateCorrelations [5, 5, 5, 5] =
      [{ metric := "Serial Correlation (Lag-1)", corrNumerator := 0, corrDenomSq := 0 }] := by
  unfold calculateCorrelations
  rw [if_neg (by norm_num : ¬ ([5, 5, 5, 5] : List ℚ).length < 4)]
  have hp : lagPairs [5, 5, 5, 5] = [(5, 5), (5, 5), (5, 5)] := rfl
  dsimp only
  rw [hp]
  rw [if_neg (by norm_num : ¬ ([((5 : ℚ), (5 : ℚ)), (5, 5), (5, 5)]).length < 3)]
  have hnum : pearsonNumerator [(5, 5), (5, 5), (5, 5)] = 0 := by
    norm_num [pearsonNumerator]
  have hden : pearsonDenomSq [(5, 5), (5, 5), (5, 5)] = 0 := by
    norm_num [pearsonDenomSq]
  rw [hnum, hden]

end Cognatus
